import Mathlib

/-!
Verification of the BCM session and message-framing engine of the
CAN_BCM_Boost_Asio repository (src/src/CANConnector.cpp, src/src/CANConnector.h).

The embedding models the byte buffers the connector submits to and receives
from the BCM socket.  Kernel ABI struct layouts (x86-64) are reproduced at the
byte level: bcm_msg_head is 56 bytes (opcode, flags, count at offsets 0, 4, 8,
4 bytes of alignment padding at offset 12, ival1 at 16, ival2 at 32, can_id at
48, nframes at 52), can_frame is 16 bytes, canfd_frame is 72 bytes.  Multi-byte
fields are little-endian.  Buffers are lists of byte values (Nat).
-/

namespace CANConnector

/-! ### Constants from linux/can.h and linux/can/bcm.h -/

def TX_SETUP : Nat := 1

def TX_DELETE : Nat := 2

def TX_SEND : Nat := 4

def SETTIMER : Nat := 1

def STARTTIMER : Nat := 2

def CAN_FD_FRAME : Nat := 2048

/-- MAXFRAMES from CANConnector.h: capacity of the bcmMsgMultipleFrames structs. -/
def MAXFRAMES : Nat := 256

/-- The flag word SETTIMER | STARTTIMER used by the classic TX_SETUP branch. -/
def setupFlagsCan : Nat := Nat.lor SETTIMER STARTTIMER

/-- The flag word CAN_FD_FRAME | SETTIMER | STARTTIMER used by the CANFD
TX_SETUP branch. -/
def setupFlagsCanFD : Nat := Nat.lor (Nat.lor CAN_FD_FRAME SETTIMER) STARTTIMER

def headerSize : Nat := 56

def canFrameSize : Nat := 16

def canfdFrameSize : Nat := 72

/-- sizeof of the frame struct selected by the CANFD flag. -/
def frameSize (isCANFD : Bool) : Nat := if isCANFD then canfdFrameSize else canFrameSize

/-- sizeof(struct bcmMsgSingleFrameCan). -/
def bcmMsgSingleFrameCanSize : Nat := headerSize + canFrameSize

/-- sizeof(struct bcmMsgSingleFrameCanFD). -/
def bcmMsgSingleFrameCanFDSize : Nat := headerSize + canfdFrameSize

/-- sizeof(struct bcmMsgMultipleFramesCan). -/
def bcmMsgMultipleFramesCanSize : Nat := headerSize + MAXFRAMES * canFrameSize

/-- sizeof(struct bcmMsgMultipleFramesCanFD). -/
def bcmMsgMultipleFramesCanFDSize : Nat := headerSize + MAXFRAMES * canfdFrameSize

/-! ### Data model: kernel ABI structures -/

/-- struct bcm_timeval: two native longs, modelled by their 64-bit patterns. -/
structure BcmTimeval where
  tv_sec : Nat
  tv_usec : Nat
deriving DecidableEq

/-- struct bcm_msg_head. -/
structure BcmMsgHead where
  opcode : Nat
  flags : Nat
  count : Nat
  ival1 : BcmTimeval
  ival2 : BcmTimeval
  can_id : Nat
  nframes : Nat
deriving DecidableEq

/-- struct canfd_frame: can_id (u32), len, flags, res0, res1 (u8 each) and
64 data bytes.  The connector passes classic frames around in this struct as
well, reinterpreting the leading bytes as a struct can_frame. -/
structure CanfdFrame where
  can_id : Nat
  len : Nat
  flags : Nat
  res0 : Nat
  res1 : Nat
  data : List Nat
deriving DecidableEq

def defaultFrame : CanfdFrame := ⟨0, 0, 0, 0, 0, []⟩

/-! ### Byte-level serialization -/

def u32Bytes (n : Nat) : List Nat :=
  [n % 256, n / 256 % 256, n / 65536 % 256, n / 16777216 % 256]

def u64Bytes (n : Nat) : List Nat :=
  [n % 256, n / 256 % 256, n / 65536 % 256, n / 16777216 % 256,
   n / 4294967296 % 256, n / 1099511627776 % 256,
   n / 281474976710656 % 256, n / 72057594037927936 % 256]

/-- Byte image of a struct bcm_msg_head (56 bytes, including the 4 alignment
padding bytes at offset 12, zeroed by value-initialization). -/
def serializeHead (h : BcmMsgHead) : List Nat :=
  u32Bytes h.opcode ++ u32Bytes h.flags ++ u32Bytes h.count ++ [0, 0, 0, 0] ++
  u64Bytes h.ival1.tv_sec ++ u64Bytes h.ival1.tv_usec ++
  u64Bytes h.ival2.tv_sec ++ u64Bytes h.ival2.tv_usec ++
  u32Bytes h.can_id ++ u32Bytes h.nframes

/-- Byte image of a struct canfd_frame (72 bytes). -/
def serializeCanfdFrame (f : CanfdFrame) : List Nat :=
  u32Bytes f.can_id ++ [f.len % 256, f.flags % 256, f.res0 % 256, f.res1 % 256] ++
  (((f.data ++ List.replicate 64 0).take 64).map fun b => b % 256)

/-- Byte image of the struct can_frame obtained by reinterpreting a
canfd_frame pointer, as the code does with (struct can_frame*) casts:
exactly the leading 16 bytes of the canfd_frame object. -/
def serializeCanFrame (f : CanfdFrame) : List Nat :=
  (serializeCanfdFrame f).take 16

/-- The contiguous frame payload of a multi-frame message: each frame
serialized per the CANFD flag, in the original order. -/
def serializeFrames (frames : List CanfdFrame) (isCANFD : Bool) : List Nat :=
  if isCANFD then (frames.map serializeCanfdFrame).flatten
  else (frames.map serializeCanFrame).flatten

/-- Pads a byte list with zeroes up to the full struct size, matching the
value-initialized (zeroed) tail of the fixed-capacity message structs. -/
def zeroPad (size : Nat) (l : List Nat) : List Nat :=
  l ++ List.replicate (size - l.length) 0

/-! ### Outbound encoders (CANConnector.cpp)

Each encoder yields the byte buffer handed to async_send: the code fills a
value-initialized message struct and submits sizeof(struct) bytes. -/

/-- txSendSingleFrame: TX_SEND message carrying exactly one frame.  The CANFD
branch sets flags = CAN_FD_FRAME; the classic branch leaves flags untouched
(zero from value-initialization) and reinterprets the frame as can_frame. -/
def txSendSingleFrame (frame : CanfdFrame) (isCANFD : Bool) : List Nat :=
  if isCANFD then
    serializeHead { opcode := TX_SEND, flags := CAN_FD_FRAME, count := 0,
                    ival1 := ⟨0, 0⟩, ival2 := ⟨0, 0⟩, can_id := 0, nframes := 1 } ++
    serializeCanfdFrame frame
  else
    serializeHead { opcode := TX_SEND, flags := 0, count := 0,
                    ival1 := ⟨0, 0⟩, ival2 := ⟨0, 0⟩, can_id := 0, nframes := 1 } ++
    serializeCanFrame frame

/-- txSendMultipleFrames: the for loop submitting one single-frame TX_SEND
per index 0..nframes-1; the result lists the submitted buffers in order. -/
def txSendMultipleFrames (frames : List CanfdFrame) (isCANFD : Bool) : List (List Nat) :=
  (List.range frames.length).map fun index =>
    txSendSingleFrame (frames.getD index defaultFrame) isCANFD

/-- txSetupSequence: TX_SETUP message for a cyclic transmission task.  The
code copies nframes frames into the fixed 256-slot struct and submits the
whole sizeof(struct) bytes, the unused tail being zero from
value-initialization.  No validation of nframes is performed. -/
def txSetupSequence (frames : List CanfdFrame) (count : Nat)
    (ival1 ival2 : BcmTimeval) (isCANFD : Bool) : List Nat :=
  if isCANFD then
    zeroPad bcmMsgMultipleFramesCanFDSize
      (serializeHead { opcode := TX_SETUP,
                       flags := setupFlagsCanFD,
                       count := count, ival1 := ival1, ival2 := ival2,
                       can_id := 0, nframes := frames.length } ++
       (frames.map serializeCanfdFrame).flatten)
  else
    zeroPad bcmMsgMultipleFramesCanSize
      (serializeHead { opcode := TX_SETUP,
                       flags := setupFlagsCan,
                       count := count, ival1 := ival1, ival2 := ival2,
                       can_id := 0, nframes := frames.length } ++
       (frames.map serializeCanFrame).flatten)

/-- txDelete: bare bcm_msg_head with opcode TX_DELETE and the task can_id;
all other fields zero from value-initialization. -/
def txDelete (canID : Nat) : List Nat :=
  serializeHead { opcode := TX_DELETE, flags := 0, count := 0,
                  ival1 := ⟨0, 0⟩, ival2 := ⟨0, 0⟩, can_id := canID, nframes := 0 }

/-! ### Inbound decoding (receive completion handler) -/

def leNat : List Nat → Nat
  | [] => 0
  | b :: bs => b + 256 * leNat bs

/-- The len bytes starting at offset off of a buffer. -/
def slice (buf : List Nat) (off len : Nat) : List Nat := (buf.drop off).take len

def parseTimeval (buf : List Nat) (off : Nat) : BcmTimeval :=
  { tv_sec := leNat (slice buf off 8), tv_usec := leNat (slice buf (off + 8) 8) }

/-- Reading a struct bcm_msg_head from the front of the receive buffer, as
the reinterpret_cast in the completion handler does. -/
def parseHead (buf : List Nat) : BcmMsgHead :=
  { opcode := leNat (slice buf 0 4), flags := leNat (slice buf 4 4),
    count := leNat (slice buf 8 4),
    ival1 := parseTimeval buf 16, ival2 := parseTimeval buf 32,
    can_id := leNat (slice buf 48 4), nframes := leNat (slice buf 52 4) }

/-- head->flags & CAN_FD_FRAME test of the completion handler. -/
def headIsCANFD (h : BcmMsgHead) : Bool := Nat.land h.flags CAN_FD_FRAME != 0

/-- The data handed to handleReceivedData: header, raw frame bytes, frame
count and the CANFD flag. -/
structure RxData where
  head : BcmMsgHead
  frames : List Nat
  nframes : Nat
  isCANFD : Bool
deriving DecidableEq

/-- The decode step of the receive completion handler: require at least a
whole bcm_msg_head, read it, determine CAN vs CANFD from the flags, compute
the expected total size from nframes, and hand the data on only when the
received byte count matches exactly; otherwise discard. -/
def rxDecode (buf : List Nat) : Option RxData :=
  if headerSize ≤ buf.length then
    if buf.length = (parseHead buf).nframes * frameSize (headIsCANFD (parseHead buf)) + headerSize then
      some { head := parseHead buf,
             frames := slice buf headerSize
               ((parseHead buf).nframes * frameSize (headIsCANFD (parseHead buf))),
             nframes := (parseHead buf).nframes,
             isCANFD := headIsCANFD (parseHead buf) }
    else none
  else none

/-! ### Receive pump model (receiveOnSocket and its completion handler) -/

/-- A completion event delivered to the receive handler: either a transport
error, or success with the received datagram bytes. -/
inductive RxCompletion where
  | failure (errorCode : Nat)
  | success (datagram : List Nat)
deriving DecidableEq

/-- The observable actions of one run of the receive completion handler. -/
inductive RxAction where
  | handleData (d : RxData)
  | logDiscard
  | logError (errorCode : Nat)
  | rearm
deriving DecidableEq

/-- The receive completion handler: on error it logs; on success it decodes
and either handles the data or logs a discard; on every path it finally
creates the next receive operation (the trailing receiveOnSocket call). -/
def receiveHandlerActions (c : RxCompletion) : List RxAction :=
  (match c with
   | RxCompletion.failure code => [RxAction.logError code]
   | RxCompletion.success datagram =>
     match rxDecode datagram with
     | some d => [RxAction.handleData d]
     | none => [RxAction.logDiscard]) ++ [RxAction.rearm]

def isRearm : RxAction → Bool
  | RxAction.rearm => true
  | _ => false

/-- How many new receive operations a handler run creates. -/
def rearmCount (actions : List RxAction) : Nat := (actions.filter isRearm).length

/-- Number of outstanding receive operations after a sequence of completion
events: the constructor arms one receive before starting the loop; each
completion consumes the outstanding receive and arms whatever its handler
creates. -/
def outstandingAfter (completions : List RxCompletion) : Nat :=
  completions.foldl
    (fun outstanding c => outstanding - 1 + rearmCount (receiveHandlerActions c)) 1

/-! ### Construction model (CANConnector constructor and createBcmSocket) -/

/-- Environment outcomes for the two fallible steps of createBcmSocket:
the io_control interface-name resolution and the connect call.  some code
means the step reported that error code. -/
structure SocketEnv where
  ioControlError : Option Nat
  connectError : Option Nat
deriving DecidableEq

inductive CtorAction where
  | logIoControlError (errorCode : Nat)
  | logConnectError (errorCode : Nat)
  | armReceive
  | startWorker
deriving DecidableEq

/-- createBcmSocket: resolves the interface and connects, logging any error
code but always falling through and returning the socket. -/
def createBcmSocketActions (env : SocketEnv) : List CtorAction :=
  (match env.ioControlError with
   | some code => [CtorAction.logIoControlError code]
   | none => []) ++
  (match env.connectError with
   | some code => [CtorAction.logConnectError code]
   | none => [])

/-- The constructor: builds the socket, then unconditionally arms the first
receive and starts the io context worker thread. -/
def connectorCtorActions (env : SocketEnv) : List CtorAction :=
  createBcmSocketActions env ++ [CtorAction.armReceive, CtorAction.startWorker]

/-- A concrete classic test frame (can_id 0x123, dlc 4, data DE AD BE EF),
mirroring the test frame built in handleSendingData. -/
def testFrame : CanfdFrame := ⟨291, 4, 0, 0, 0, [222, 173, 190, 239]⟩

/-! ### Helper lemmas -/

theorem setupFlagsCan_land : Nat.land setupFlagsCan CAN_FD_FRAME = 0 := by decide

theorem setupFlagsCanFD_land : Nat.land setupFlagsCanFD CAN_FD_FRAME = 2048 := by decide

theorem setupHeadFlagsCan (count : Nat) (ival1 ival2 : BcmTimeval) (n : Nat) :
    (⟨TX_SETUP, if (false : Bool) then setupFlagsCanFD else setupFlagsCan,
      count, ival1, ival2, 0, n⟩ : BcmMsgHead).flags = setupFlagsCan := by simp

theorem setupHeadFlagsCanFD (count : Nat) (ival1 ival2 : BcmTimeval) (n : Nat) :
    (⟨TX_SETUP, if (true : Bool) then setupFlagsCanFD else setupFlagsCan,
      count, ival1, ival2, 0, n⟩ : BcmMsgHead).flags = setupFlagsCanFD := by simp

theorem leNat_u32 (n : Nat) (hn : n < 4294967296) : leNat (u32Bytes n) = n := by
  simp only [leNat, u32Bytes]
  omega

theorem leNat_u64 (n : Nat) (hn : n < 18446744073709551616) : leNat (u64Bytes n) = n := by
  simp only [leNat, u64Bytes]
  omega

theorem serializeHead_length (h : BcmMsgHead) : (serializeHead h).length = 56 := rfl

theorem drop56_serializeHead (h : BcmMsgHead) (b : List Nat) :
    (serializeHead h ++ b).drop 56 = b := rfl

theorem parseHead_serializeHead (o fl c s1 us1 s2 us2 ci nf : Nat) (rest : List Nat)
    (ho : o < 4294967296) (hf : fl < 4294967296) (hc : c < 4294967296)
    (hs1 : s1 < 18446744073709551616) (hu1 : us1 < 18446744073709551616)
    (hs2 : s2 < 18446744073709551616) (hu2 : us2 < 18446744073709551616)
    (hi : ci < 4294967296) (hn : nf < 4294967296) :
    parseHead (serializeHead ⟨o, fl, c, ⟨s1, us1⟩, ⟨s2, us2⟩, ci, nf⟩ ++ rest) =
      ⟨o, fl, c, ⟨s1, us1⟩, ⟨s2, us2⟩, ci, nf⟩ := by
  have e : parseHead (serializeHead ⟨o, fl, c, ⟨s1, us1⟩, ⟨s2, us2⟩, ci, nf⟩ ++ rest) =
      ⟨leNat (u32Bytes o), leNat (u32Bytes fl), leNat (u32Bytes c),
       ⟨leNat (u64Bytes s1), leNat (u64Bytes us1)⟩,
       ⟨leNat (u64Bytes s2), leNat (u64Bytes us2)⟩,
       leNat (u32Bytes ci), leNat (u32Bytes nf)⟩ := rfl
  rw [e, leNat_u32 o ho, leNat_u32 fl hf, leNat_u32 c hc,
      leNat_u64 s1 hs1, leNat_u64 us1 hu1, leNat_u64 s2 hs2, leNat_u64 us2 hu2,
      leNat_u32 ci hi, leNat_u32 nf hn]

theorem serializeCanfdFrame_length (f : CanfdFrame) : (serializeCanfdFrame f).length = 72 := by
  simp only [serializeCanfdFrame, u32Bytes, List.length_append, List.length_cons,
    List.length_nil, List.length_map, List.length_take, List.length_replicate]
  omega

theorem serializeCanFrame_length (f : CanfdFrame) : (serializeCanFrame f).length = 16 := by
  simp only [serializeCanFrame, List.length_take, serializeCanfdFrame_length]
  omega

theorem length_flatten_map_const {α : Type} (g : α → List Nat) (k : Nat)
    (hg : ∀ x, (g x).length = k) (l : List α) :
    ((l.map g).flatten).length = l.length * k := by
  induction l with
  | nil => simp
  | cons a t ih =>
    simp only [List.map_cons, List.flatten_cons, List.length_append, hg a, ih,
      List.length_cons]
    ring

theorem serializeFrames_length (frames : List CanfdFrame) (isCANFD : Bool) :
    (serializeFrames frames isCANFD).length = frames.length * frameSize isCANFD := by
  cases isCANFD with
  | true =>
    show ((frames.map serializeCanfdFrame).flatten).length = frames.length * 72
    exact length_flatten_map_const serializeCanfdFrame 72 serializeCanfdFrame_length frames
  | false =>
    show ((frames.map serializeCanFrame).flatten).length = frames.length * 16
    exact length_flatten_map_const serializeCanFrame 16 serializeCanFrame_length frames

theorem zeroPad_length (size : Nat) (l : List Nat) (hl : l.length ≤ size) :
    (zeroPad size l).length = size := by
  simp only [zeroPad, List.length_append, List.length_replicate]
  omega

theorem take_len_append (b c : List Nat) (n : Nat) (hb : b.length = n) :
    (b ++ c).take n = b := by
  subst hb
  exact List.take_left b c

theorem take_append_take (l r : List Nat) (n : Nat) :
    (l.take n ++ r).take n = (l ++ r).take n := by
  induction l generalizing n with
  | nil => simp
  | cons a t ih =>
    cases n with
    | zero => simp
    | succ m => simp only [List.take_succ_cons, List.cons_append, ih]

theorem range_map_getD {α β : Type} (l : List α) (d : α) (f : α → β) :
    ((List.range l.length).map fun i => f (l.getD i d)) = l.map f := by
  induction l with
  | nil => simp
  | cons a t ih =>
    rw [List.length_cons, List.range_succ_eq_map, List.map_cons, List.map_map]
    simp only [List.getD_cons_zero, Function.comp_def, Nat.succ_eq_add_one,
      List.getD_cons_succ]
    rw [ih, List.map_cons]

theorem parseHead_zeroPad_serializeHead (o fl c s1 us1 s2 us2 ci nf : Nat)
    (b : List Nat) (size : Nat)
    (ho : o < 4294967296) (hf : fl < 4294967296) (hc : c < 4294967296)
    (hs1 : s1 < 18446744073709551616) (hu1 : us1 < 18446744073709551616)
    (hs2 : s2 < 18446744073709551616) (hu2 : us2 < 18446744073709551616)
    (hi : ci < 4294967296) (hn : nf < 4294967296) :
    parseHead (zeroPad size
        (serializeHead ⟨o, fl, c, ⟨s1, us1⟩, ⟨s2, us2⟩, ci, nf⟩ ++ b)) =
      ⟨o, fl, c, ⟨s1, us1⟩, ⟨s2, us2⟩, ci, nf⟩ := by
  unfold zeroPad
  rw [List.append_assoc]
  exact parseHead_serializeHead o fl c s1 us1 s2 us2 ci nf _ ho hf hc hs1 hu1 hs2 hu2 hi hn

theorem txSetupSequence_parseHead (frames : List CanfdFrame) (count : Nat)
    (ival1 ival2 : BcmTimeval) (isCANFD : Bool)
    (hc : count < 4294967296)
    (hs1 : ival1.tv_sec < 18446744073709551616)
    (hu1 : ival1.tv_usec < 18446744073709551616)
    (hs2 : ival2.tv_sec < 18446744073709551616)
    (hu2 : ival2.tv_usec < 18446744073709551616)
    (hlen : frames.length ≤ MAXFRAMES) :
    parseHead (txSetupSequence frames count ival1 ival2 isCANFD) =
      ⟨TX_SETUP,
       if isCANFD then setupFlagsCanFD
       else setupFlagsCan,
       count, ival1, ival2, 0, frames.length⟩ := by
  obtain ⟨s1, us1⟩ := ival1
  obtain ⟨s2, us2⟩ := ival2
  have hn : frames.length < 4294967296 := by
    simp only [MAXFRAMES] at hlen
    omega
  cases isCANFD with
  | false =>
    exact parseHead_zeroPad_serializeHead TX_SETUP (setupFlagsCan) count
      s1 us1 s2 us2 0 frames.length _ _ (by decide) (by decide) hc hs1 hu1 hs2 hu2
      (by decide) hn
  | true =>
    exact parseHead_zeroPad_serializeHead TX_SETUP
      (setupFlagsCanFD) count
      s1 us1 s2 us2 0 frames.length _ _ (by decide) (by decide) hc hs1 hu1 hs2 hu2
      (by decide) hn

theorem txSetupSequence_length (frames : List CanfdFrame) (count : Nat)
    (ival1 ival2 : BcmTimeval) (isCANFD : Bool)
    (hlen : frames.length ≤ MAXFRAMES) :
    (txSetupSequence frames count ival1 ival2 isCANFD).length =
      headerSize + MAXFRAMES * frameSize isCANFD := by
  simp only [MAXFRAMES] at hlen
  cases isCANFD with
  | false =>
    show (zeroPad bcmMsgMultipleFramesCanSize
      (serializeHead ⟨TX_SETUP, setupFlagsCan, count, ival1, ival2, 0,
        frames.length⟩ ++ (frames.map serializeCanFrame).flatten)).length = _
    rw [zeroPad_length]
    · rfl
    · rw [List.length_append, serializeHead_length,
        length_flatten_map_const serializeCanFrame 16 serializeCanFrame_length frames]
      simp only [bcmMsgMultipleFramesCanSize, headerSize, MAXFRAMES, canFrameSize]
      omega
  | true =>
    show (zeroPad bcmMsgMultipleFramesCanFDSize
      (serializeHead ⟨TX_SETUP, setupFlagsCanFD, count,
        ival1, ival2, 0, frames.length⟩ ++ (frames.map serializeCanfdFrame).flatten)).length = _
    rw [zeroPad_length]
    · rfl
    · rw [List.length_append, serializeHead_length,
        length_flatten_map_const serializeCanfdFrame 72 serializeCanfdFrame_length frames]
      simp only [bcmMsgMultipleFramesCanFDSize, headerSize, MAXFRAMES, canfdFrameSize]
      omega

theorem txSetupSequence_payload (frames : List CanfdFrame) (count : Nat)
    (ival1 ival2 : BcmTimeval) (isCANFD : Bool) :
    slice (txSetupSequence frames count ival1 ival2 isCANFD) headerSize
        (frames.length * frameSize isCANFD) =
      serializeFrames frames isCANFD := by
  cases isCANFD with
  | false =>
    show slice (zeroPad bcmMsgMultipleFramesCanSize
      (serializeHead ⟨TX_SETUP, setupFlagsCan, count, ival1, ival2, 0,
        frames.length⟩ ++ (frames.map serializeCanFrame).flatten)) 56
      (frames.length * 16) = (frames.map serializeCanFrame).flatten
    unfold slice zeroPad
    rw [List.append_assoc, drop56_serializeHead]
    exact take_len_append _ _ _
      (length_flatten_map_const serializeCanFrame 16 serializeCanFrame_length frames)
  | true =>
    show slice (zeroPad bcmMsgMultipleFramesCanFDSize
      (serializeHead ⟨TX_SETUP, setupFlagsCanFD, count,
        ival1, ival2, 0, frames.length⟩ ++ (frames.map serializeCanfdFrame).flatten)) 56
      (frames.length * 72) = (frames.map serializeCanfdFrame).flatten
    unfold slice zeroPad
    rw [List.append_assoc, drop56_serializeHead]
    exact take_len_append _ _ _
      (length_flatten_map_const serializeCanfdFrame 72 serializeCanfdFrame_length frames)

theorem txSetupSequence_rxDecode (frames : List CanfdFrame) (count : Nat)
    (ival1 ival2 : BcmTimeval) (isCANFD : Bool)
    (hc : count < 4294967296)
    (hs1 : ival1.tv_sec < 18446744073709551616)
    (hu1 : ival1.tv_usec < 18446744073709551616)
    (hs2 : ival2.tv_sec < 18446744073709551616)
    (hu2 : ival2.tv_usec < 18446744073709551616)
    (hlen : frames.length ≤ MAXFRAMES) :
    rxDecode (txSetupSequence frames count ival1 ival2 isCANFD) =
      if frames.length = MAXFRAMES then
        some ⟨⟨TX_SETUP,
               if isCANFD then setupFlagsCanFD
               else setupFlagsCan,
               count, ival1, ival2, 0, frames.length⟩,
              serializeFrames frames isCANFD, frames.length, isCANFD⟩
      else none := by
  have hh := txSetupSequence_parseHead frames count ival1 ival2 isCANFD hc hs1 hu1 hs2 hu2 hlen
  have hl := txSetupSequence_length frames count ival1 ival2 isCANFD hlen
  have hp := txSetupSequence_payload frames count ival1 ival2 isCANFD
  have hfd : headIsCANFD (parseHead (txSetupSequence frames count ival1 ival2 isCANFD)) =
      isCANFD := by
    rw [hh]
    cases isCANFD with
    | false =>
      simp only [headIsCANFD, setupHeadFlagsCan, setupFlagsCan_land]
      rfl
    | true =>
      simp only [headIsCANFD, setupHeadFlagsCanFD, setupFlagsCanFD_land]
      rfl
  have hnf : (parseHead (txSetupSequence frames count ival1 ival2 isCANFD)).nframes =
      frames.length := by
    rw [hh]
  unfold rxDecode
  rw [hfd, hnf, hl, hh, hp]
  rw [if_pos (Nat.le_add_right headerSize (MAXFRAMES * frameSize isCANFD))]
  by_cases h256 : frames.length = MAXFRAMES
  · rw [if_pos h256, if_pos (by rw [h256, Nat.add_comm])]
  · rw [if_neg h256, if_neg]
    intro heq
    apply h256
    have hA : MAXFRAMES * frameSize isCANFD = frames.length * frameSize isCANFD := by
      omega
    have hfsz : 0 < frameSize isCANFD := by
      cases isCANFD <;> decide
    exact (Nat.eq_of_mul_eq_mul_right hfsz hA).symm

theorem txSendSingleFrame_length (frame : CanfdFrame) (isCANFD : Bool) :
    (txSendSingleFrame frame isCANFD).length = headerSize + frameSize isCANFD := by
  cases isCANFD with
  | false =>
    show (serializeHead ⟨TX_SEND, 0, 0, ⟨0, 0⟩, ⟨0, 0⟩, 0, 1⟩ ++
      serializeCanFrame frame).length = _
    rw [List.length_append, serializeHead_length, serializeCanFrame_length]
    rfl
  | true =>
    show (serializeHead ⟨TX_SEND, CAN_FD_FRAME, 0, ⟨0, 0⟩, ⟨0, 0⟩, 0, 1⟩ ++
      serializeCanfdFrame frame).length = _
    rw [List.length_append, serializeHead_length, serializeCanfdFrame_length]
    rfl

theorem txSendSingleFrame_parseHead (frame : CanfdFrame) (isCANFD : Bool) :
    parseHead (txSendSingleFrame frame isCANFD) =
      ⟨TX_SEND, if isCANFD then CAN_FD_FRAME else 0, 0, ⟨0, 0⟩, ⟨0, 0⟩, 0, 1⟩ := by
  cases isCANFD with
  | false =>
    exact parseHead_serializeHead TX_SEND 0 0 0 0 0 0 0 1 _ (by decide) (by decide)
      (by decide) (by decide) (by decide) (by decide) (by decide) (by decide) (by decide)
  | true =>
    exact parseHead_serializeHead TX_SEND CAN_FD_FRAME 0 0 0 0 0 0 1 _ (by decide)
      (by decide) (by decide) (by decide) (by decide) (by decide) (by decide) (by decide)
      (by decide)

theorem txSendSingleFrame_payload (frame : CanfdFrame) (isCANFD : Bool) :
    slice (txSendSingleFrame frame isCANFD) headerSize (frameSize isCANFD) =
      (if isCANFD then serializeCanfdFrame frame else serializeCanFrame frame) := by
  cases isCANFD with
  | false =>
    show slice (serializeHead ⟨TX_SEND, 0, 0, ⟨0, 0⟩, ⟨0, 0⟩, 0, 1⟩ ++
      serializeCanFrame frame) 56 16 = serializeCanFrame frame
    unfold slice
    rw [drop56_serializeHead]
    exact List.take_of_length_le (by rw [serializeCanFrame_length])
  | true =>
    show slice (serializeHead ⟨TX_SEND, CAN_FD_FRAME, 0, ⟨0, 0⟩, ⟨0, 0⟩, 0, 1⟩ ++
      serializeCanfdFrame frame) 56 72 = serializeCanfdFrame frame
    unfold slice
    rw [drop56_serializeHead]
    exact List.take_of_length_le (by rw [serializeCanfdFrame_length])

theorem txSetupSequence_headIsCANFD (frames : List CanfdFrame) (count : Nat)
    (ival1 ival2 : BcmTimeval) (isCANFD : Bool)
    (hc : count < 4294967296)
    (hs1 : ival1.tv_sec < 18446744073709551616)
    (hu1 : ival1.tv_usec < 18446744073709551616)
    (hs2 : ival2.tv_sec < 18446744073709551616)
    (hu2 : ival2.tv_usec < 18446744073709551616)
    (hlen : frames.length ≤ MAXFRAMES) :
    headIsCANFD (parseHead (txSetupSequence frames count ival1 ival2 isCANFD)) = isCANFD := by
  rw [txSetupSequence_parseHead frames count ival1 ival2 isCANFD hc hs1 hu1 hs2 hu2 hlen]
  cases isCANFD with
  | false =>
    simp only [headIsCANFD, setupHeadFlagsCan, setupFlagsCan_land]
    rfl
  | true =>
    simp only [headIsCANFD, setupHeadFlagsCanFD, setupFlagsCanFD_land]
    rfl

theorem sendHeadFlagsCan (n : Nat) :
    (⟨TX_SEND, if (false : Bool) then CAN_FD_FRAME else 0,
      0, ⟨0, 0⟩, ⟨0, 0⟩, 0, n⟩ : BcmMsgHead).flags = 0 := by simp

theorem sendHeadFlagsCanFD (n : Nat) :
    (⟨TX_SEND, if (true : Bool) then CAN_FD_FRAME else 0,
      0, ⟨0, 0⟩, ⟨0, 0⟩, 0, n⟩ : BcmMsgHead).flags = CAN_FD_FRAME := by simp

theorem CAN_FD_FRAME_land_self : Nat.land CAN_FD_FRAME CAN_FD_FRAME = 2048 := by decide

theorem zero_land_CAN_FD_FRAME : Nat.land 0 CAN_FD_FRAME = 0 := by decide

theorem txSendSingleFrame_headIsCANFD (frame : CanfdFrame) (isCANFD : Bool) :
    headIsCANFD (parseHead (txSendSingleFrame frame isCANFD)) = isCANFD := by
  rw [txSendSingleFrame_parseHead frame isCANFD]
  cases isCANFD with
  | false =>
    simp only [headIsCANFD, sendHeadFlagsCan, zero_land_CAN_FD_FRAME]
    rfl
  | true =>
    simp only [headIsCANFD, sendHeadFlagsCanFD, CAN_FD_FRAME_land_self]
    rfl

theorem rxDecode_isSome_iff (buf : List Nat) :
    (rxDecode buf).isSome = true ↔
      (headerSize ≤ buf.length ∧
       buf.length =
         headerSize + (parseHead buf).nframes * frameSize (headIsCANFD (parseHead buf))) := by
  unfold rxDecode
  by_cases h1 : headerSize ≤ buf.length
  · rw [if_pos h1]
    by_cases h2 : buf.length =
        (parseHead buf).nframes * frameSize (headIsCANFD (parseHead buf)) + headerSize
    · rw [if_pos h2]
      simp only [Option.isSome_some, true_iff]
      exact ⟨h1, by omega⟩
    · rw [if_neg h2]
      simp only [Option.isSome_none, Bool.false_eq_true, false_iff]
      intro hcontra
      exact h2 (by omega)
  · rw [if_neg h1]
    simp only [Option.isSome_none, Bool.false_eq_true, false_iff]
    intro hcontra
    exact h1 hcontra.1

theorem rearmCount_eq_one (c : RxCompletion) : rearmCount (receiveHandlerActions c) = 1 := by
  cases c with
  | failure code => rfl
  | success datagram =>
    show rearmCount ((match rxDecode datagram with
      | some d => [RxAction.handleData d]
      | none => [RxAction.logDiscard]) ++ [RxAction.rearm]) = 1
    cases rxDecode datagram with
    | none => rfl
    | some d => rfl

theorem outstandingAfter_eq_one (completions : List RxCompletion) :
    outstandingAfter completions = 1 := by
  unfold outstandingAfter
  induction completions with
  | nil => rfl
  | cons c cs ih =>
    rw [List.foldl_cons]
    have e : (1 : Nat) - 1 + rearmCount (receiveHandlerActions c) = 1 := by
      rw [rearmCount_eq_one]
    rw [e]
    exact ih

theorem txDelete_length (canID : Nat) : (txDelete canID).length = headerSize := rfl

theorem min_8_64 : min 8 64 = 8 := rfl

/-- The classic frame image is the first 8 header bytes of the canfd_frame
followed by its first 8 data bytes: everything past the classic payload
capacity is cut off by the 16-byte reinterpretation. -/
theorem serializeCanFrame_eq (f : CanfdFrame) :
    serializeCanFrame f =
      u32Bytes f.can_id ++ ([f.len % 256, f.flags % 256, f.res0 % 256, f.res1 % 256] ++
      ((f.data ++ List.replicate 64 0).take 8).map (fun b => b % 256)) := by
  have ht : ((((f.data ++ List.replicate 64 0).take 64).map (fun b => b % 256)).take 8) =
      ((f.data ++ List.replicate 64 0).take 8).map (fun b => b % 256) := by
    rw [← List.map_take, List.take_take, min_8_64]
  show u32Bytes f.can_id ++ ([f.len % 256, f.flags % 256, f.res0 % 256, f.res1 % 256] ++
      ((((f.data ++ List.replicate 64 0).take 64).map (fun b => b % 256)).take 8)) = _
  rw [ht]

theorem serializeCanFrame_data_take (f : CanfdFrame) :
    serializeCanFrame f =
      serializeCanFrame ⟨f.can_id, f.len, f.flags, f.res0, f.res1, f.data.take 8⟩ := by
  rw [serializeCanFrame_eq, serializeCanFrame_eq]
  simp only [take_append_take]

/-! ### Claim theorems -/

/-- C1 counterexample: the claim fails as stated.  Encoding a classic
SetupCyclic request with one frame yields the full fixed-size struct
(4152 bytes), which fails the size check of the decoder
receivedBytes == headerSize + nframes * frameSize and is discarded. -/
theorem claimC1_counterexample :
    rxDecode (txSetupSequence [testFrame] 3 ⟨0, 500⟩ ⟨1, 0⟩ false) = none := by
  rw [txSetupSequence_rxDecode [testFrame] 3 ⟨0, 500⟩ ⟨1, 0⟩ false (by decide) (by decide)
    (by decide) (by decide) (by decide) (by decide)]
  rw [if_neg (by decide)]

/-- C1 (amended): for 1 ≤ nframes ≤ 256, the encoded TX_SETUP buffer carries
the header fields verbatim (recoverable by the header parse of the decoder) and
the frame sequence byte-for-byte in its payload prefix; but because the
encoder always submits the full 256-slot struct, the buffer passes the
size check of the decoder if and only if nframes = 256. -/
theorem claimC1_setup_roundtrip (frames : List CanfdFrame) (count : Nat)
    (ival1 ival2 : BcmTimeval) (isCANFD : Bool)
    (h1 : 1 ≤ frames.length) (h2 : frames.length ≤ MAXFRAMES)
    (hc : count < 4294967296)
    (hs1 : ival1.tv_sec < 18446744073709551616)
    (hu1 : ival1.tv_usec < 18446744073709551616)
    (hs2 : ival2.tv_sec < 18446744073709551616)
    (hu2 : ival2.tv_usec < 18446744073709551616) :
    parseHead (txSetupSequence frames count ival1 ival2 isCANFD) =
      ⟨TX_SETUP, if isCANFD then setupFlagsCanFD else setupFlagsCan,
       count, ival1, ival2, 0, frames.length⟩ ∧
    slice (txSetupSequence frames count ival1 ival2 isCANFD) headerSize
        (frames.length * frameSize isCANFD) = serializeFrames frames isCANFD ∧
    ((rxDecode (txSetupSequence frames count ival1 ival2 isCANFD)).isSome = true ↔
      frames.length = MAXFRAMES) := by
  refine ⟨txSetupSequence_parseHead frames count ival1 ival2 isCANFD hc hs1 hu1 hs2 hu2 h2,
          txSetupSequence_payload frames count ival1 ival2 isCANFD, ?_⟩
  rw [txSetupSequence_rxDecode frames count ival1 ival2 isCANFD hc hs1 hu1 hs2 hu2 h2]
  by_cases h256 : frames.length = MAXFRAMES
  · rw [if_pos h256]
    simp [h256]
  · rw [if_neg h256]
    simp [h256]

/-- C1 witness: the amended theorem applied to a concrete one-frame request. -/
theorem claimC1_witness :
    (1 ≤ ([testFrame] : List CanfdFrame).length ∧
     ([testFrame] : List CanfdFrame).length ≤ MAXFRAMES) ∧
    (parseHead (txSetupSequence [testFrame] 3 ⟨0, 500⟩ ⟨1, 0⟩ false) =
       ⟨TX_SETUP, if (false : Bool) then setupFlagsCanFD else setupFlagsCan,
        3, ⟨0, 500⟩, ⟨1, 0⟩, 0, ([testFrame] : List CanfdFrame).length⟩ ∧
     slice (txSetupSequence [testFrame] 3 ⟨0, 500⟩ ⟨1, 0⟩ false) headerSize
         (([testFrame] : List CanfdFrame).length * frameSize false) =
       serializeFrames [testFrame] false ∧
     ((rxDecode (txSetupSequence [testFrame] 3 ⟨0, 500⟩ ⟨1, 0⟩ false)).isSome = true ↔
       ([testFrame] : List CanfdFrame).length = MAXFRAMES)) :=
  ⟨⟨by decide, by decide⟩,
   claimC1_setup_roundtrip [testFrame] 3 ⟨0, 500⟩ ⟨1, 0⟩ false (by decide) (by decide)
     (by decide) (by decide) (by decide) (by decide) (by decide)⟩

/-- C2 counterexample: the claim fails as stated.  A one-frame classic
SetupCyclic submission has length 4152, not headerSize + 1 * frameSize = 72:
the cyclic encoder does not emit buffers of length
headerSize + frameCount * frameSize. -/
theorem claimC2_counterexample :
    (txSetupSequence [testFrame] 3 ⟨0, 500⟩ ⟨1, 0⟩ false).length ≠
      headerSize + ([testFrame] : List CanfdFrame).length * frameSize false := by
  rw [txSetupSequence_length [testFrame] 3 ⟨0, 500⟩ ⟨1, 0⟩ false (by decide)]
  decide

/-- C2 (amended): txSendSingleFrame and txDelete emit buffers of exactly
headerSize + frameCount * frameSize(isFD) with frameCount 1 and 0; but
txSetupSequence always emits the full fixed struct
headerSize + 256 * frameSize(isFD) regardless of its frame count. -/
theorem claimC2_buffer_shapes (frame : CanfdFrame) (isCANFD : Bool) (canID : Nat)
    (frames : List CanfdFrame) (count : Nat) (ival1 ival2 : BcmTimeval)
    (hlen : frames.length ≤ MAXFRAMES) :
    (txSendSingleFrame frame isCANFD).length = headerSize + 1 * frameSize isCANFD ∧
    (txDelete canID).length = headerSize + 0 * frameSize isCANFD ∧
    (txSetupSequence frames count ival1 ival2 isCANFD).length =
      headerSize + MAXFRAMES * frameSize isCANFD := by
  refine ⟨?_, ?_, txSetupSequence_length frames count ival1 ival2 isCANFD hlen⟩
  · rw [txSendSingleFrame_length, Nat.one_mul]
  · rw [txDelete_length, Nat.zero_mul, Nat.add_zero]

/-- C2 witness: the amended theorem applied to concrete requests. -/
theorem claimC2_witness :
    (([testFrame] : List CanfdFrame).length ≤ MAXFRAMES) ∧
    ((txSendSingleFrame testFrame false).length = headerSize + 1 * frameSize false ∧
     (txDelete 291).length = headerSize + 0 * frameSize false ∧
     (txSetupSequence [testFrame] 3 ⟨0, 500⟩ ⟨1, 0⟩ false).length =
       headerSize + MAXFRAMES * frameSize false) :=
  ⟨by decide,
   claimC2_buffer_shapes testFrame false 291 [testFrame] 3 ⟨0, 500⟩ ⟨1, 0⟩ (by decide)⟩

/-- C3 (code_bug evidence): calling txSetupSequence with zero frames performs
no validation and still builds and submits a full-size TX_SETUP message with
header.nframes = 0; no InvalidArgument is signalled anywhere (the encoder is
total and unconditionally hands its buffer to async_send). -/
theorem claimC3_zero_frames_submitted :
    (txSetupSequence [] 3 ⟨0, 500⟩ ⟨1, 0⟩ false).length = bcmMsgMultipleFramesCanSize ∧
    parseHead (txSetupSequence [] 3 ⟨0, 500⟩ ⟨1, 0⟩ false) =
      ⟨TX_SETUP, setupFlagsCan, 3, ⟨0, 500⟩, ⟨1, 0⟩, 0, 0⟩ := by
  constructor
  · rw [txSetupSequence_length [] 3 ⟨0, 500⟩ ⟨1, 0⟩ false (by decide)]
    rfl
  · rw [txSetupSequence_parseHead [] 3 ⟨0, 500⟩ ⟨1, 0⟩ false (by decide) (by decide)
      (by decide) (by decide) (by decide) (by decide)]
    simp

/-- C4: the receive completion handler passes data on exactly when
receivedBytes ≥ headerSize and receivedBytes equals
headerSize + header.nframes * frameSize(FD bit of header.flags); otherwise
the buffer is discarded (decode yields none, total function, no reads
outside the received bytes). -/
theorem claimC4_decode_size_check (buf : List Nat) :
    (rxDecode buf).isSome = true ↔
      (headerSize ≤ buf.length ∧
       buf.length =
         headerSize + (parseHead buf).nframes * frameSize (headIsCANFD (parseHead buf))) := by
  unfold rxDecode
  by_cases h1 : headerSize ≤ buf.length
  · rw [if_pos h1]
    by_cases h2 : buf.length =
        (parseHead buf).nframes * frameSize (headIsCANFD (parseHead buf)) + headerSize
    · rw [if_pos h2]
      simp only [Option.isSome_some, true_iff]
      exact ⟨h1, by omega⟩
    · rw [if_neg h2]
      simp only [Option.isSome_none, Bool.false_eq_true, false_iff]
      intro hcontra
      exact h2 (by omega)
  · rw [if_neg h1]
    simp only [Option.isSome_none, Bool.false_eq_true, false_iff]
    intro hcontra
    exact h1 hcontra.1

/-- C5: every receive completion handler run (error, malformed, or handled)
creates exactly one new receive operation, and after any sequence of
completions exactly one receive is outstanding. -/
theorem claimC5_pump_invariant (completions : List RxCompletion) (c : RxCompletion) :
    rearmCount (receiveHandlerActions c) = 1 ∧ outstandingAfter completions = 1 :=
  ⟨rearmCount_eq_one c, outstandingAfter_eq_one completions⟩

/-- C6: the TX_SEND message encoded by txSendSingleFrame has opcode TX_SEND,
nframes 1, the CAN_FD_FRAME flag bit set iff isCANFD, total length
headerSize + frameSize(isCANFD), and exactly one frame of the struct type
selected by isCANFD as payload. -/
theorem claimC6_send_encoding (frame : CanfdFrame) (isCANFD : Bool) :
    (txSendSingleFrame frame isCANFD).length = headerSize + frameSize isCANFD ∧
    parseHead (txSendSingleFrame frame isCANFD) =
      ⟨TX_SEND, if isCANFD then CAN_FD_FRAME else 0, 0, ⟨0, 0⟩, ⟨0, 0⟩, 0, 1⟩ ∧
    headIsCANFD (parseHead (txSendSingleFrame frame isCANFD)) = isCANFD ∧
    slice (txSendSingleFrame frame isCANFD) headerSize (frameSize isCANFD) =
      (if isCANFD then serializeCanfdFrame frame else serializeCanFrame frame) :=
  ⟨txSendSingleFrame_length frame isCANFD, txSendSingleFrame_parseHead frame isCANFD,
   txSendSingleFrame_headIsCANFD frame isCANFD, txSendSingleFrame_payload frame isCANFD⟩

/-- C7: for 1 ≤ nframes ≤ 256 the TX_SETUP message has opcode TX_SETUP,
flags SETTIMER | STARTTIMER with the CAN_FD_FRAME bit additionally set iff
isCANFD, count, ival1, ival2 and nframes copied verbatim, and the frames
packed contiguously in order in the payload, each sized per isCANFD. -/
theorem claimC7_setup_encoding (frames : List CanfdFrame) (count : Nat)
    (ival1 ival2 : BcmTimeval) (isCANFD : Bool)
    (h1 : 1 ≤ frames.length) (h2 : frames.length ≤ MAXFRAMES)
    (hc : count < 4294967296)
    (hs1 : ival1.tv_sec < 18446744073709551616)
    (hu1 : ival1.tv_usec < 18446744073709551616)
    (hs2 : ival2.tv_sec < 18446744073709551616)
    (hu2 : ival2.tv_usec < 18446744073709551616) :
    parseHead (txSetupSequence frames count ival1 ival2 isCANFD) =
      ⟨TX_SETUP, if isCANFD then setupFlagsCanFD else setupFlagsCan,
       count, ival1, ival2, 0, frames.length⟩ ∧
    headIsCANFD (parseHead (txSetupSequence frames count ival1 ival2 isCANFD)) = isCANFD ∧
    slice (txSetupSequence frames count ival1 ival2 isCANFD) headerSize
        (frames.length * frameSize isCANFD) = serializeFrames frames isCANFD :=
  ⟨txSetupSequence_parseHead frames count ival1 ival2 isCANFD hc hs1 hu1 hs2 hu2 h2,
   txSetupSequence_headIsCANFD frames count ival1 ival2 isCANFD hc hs1 hu1 hs2 hu2 h2,
   txSetupSequence_payload frames count ival1 ival2 isCANFD⟩

/-- C7 witness: the theorem applied to a concrete one-frame CANFD request. -/
theorem claimC7_witness :
    (1 ≤ ([testFrame] : List CanfdFrame).length ∧
     ([testFrame] : List CanfdFrame).length ≤ MAXFRAMES) ∧
    (parseHead (txSetupSequence [testFrame] 3 ⟨0, 500⟩ ⟨1, 0⟩ true) =
       ⟨TX_SETUP, if (true : Bool) then setupFlagsCanFD else setupFlagsCan,
        3, ⟨0, 500⟩, ⟨1, 0⟩, 0, ([testFrame] : List CanfdFrame).length⟩ ∧
     headIsCANFD (parseHead (txSetupSequence [testFrame] 3 ⟨0, 500⟩ ⟨1, 0⟩ true)) = true ∧
     slice (txSetupSequence [testFrame] 3 ⟨0, 500⟩ ⟨1, 0⟩ true) headerSize
         (([testFrame] : List CanfdFrame).length * frameSize true) =
       serializeFrames [testFrame] true) :=
  ⟨⟨by decide, by decide⟩,
   claimC7_setup_encoding [testFrame] 3 ⟨0, 500⟩ ⟨1, 0⟩ true (by decide) (by decide)
     (by decide) (by decide) (by decide) (by decide) (by decide)⟩

/-- C8 counterexample: the claim fails as stated.  With a failed connect
(error code 111, connection refused), construction still arms the first
receive and starts the worker loop. -/
theorem claimC8_counterexample :
    CtorAction.armReceive ∈ connectorCtorActions ⟨none, some 111⟩ ∧
    CtorAction.startWorker ∈ connectorCtorActions ⟨none, some 111⟩ := by decide

/-- C8 (amended): resolution and connect failures are only logged;
construction proceeds unconditionally, arming the first receive and starting
the worker loop whatever the two error outcomes were. -/
theorem claimC8_construction_proceeds (env : SocketEnv) :
    CtorAction.armReceive ∈ connectorCtorActions env ∧
    CtorAction.startWorker ∈ connectorCtorActions env ∧
    connectorCtorActions env =
      createBcmSocketActions env ++ [CtorAction.armReceive, CtorAction.startWorker] := by
  refine ⟨?_, ?_, rfl⟩ <;> simp [connectorCtorActions]

/-- C9: txSendMultipleFrames is exactly one independent single-frame TX_SEND
submission per frame, in index order, and submits nothing for an empty
frame sequence. -/
theorem claimC9_multi_send (frames : List CanfdFrame) (isCANFD : Bool) :
    txSendMultipleFrames frames isCANFD =
      frames.map (fun frame => txSendSingleFrame frame isCANFD) ∧
    txSendMultipleFrames [] isCANFD = [] := by
  constructor
  · exact range_map_getD frames defaultFrame (fun frame => txSendSingleFrame frame isCANFD)
  · rfl

/-- C10: encoding a frame as classic (isCANFD = false) keeps only the
leading sizeof(can_frame) = 16 bytes of the canfd_frame: its can_id, its
len byte in the dlc position (offset 60 of the message), and its first 8
data bytes; all further data bytes are dropped with no error (the encoding
depends only on data.take 8). -/
theorem claimC10_classic_truncation (frame : CanfdFrame) :
    txSendSingleFrame frame false =
      txSendSingleFrame ⟨frame.can_id, frame.len, frame.flags, frame.res0, frame.res1,
        frame.data.take 8⟩ false ∧
    (txSendSingleFrame frame false).length = headerSize + canFrameSize ∧
    slice (txSendSingleFrame frame false) headerSize canFrameSize =
      (serializeCanfdFrame frame).take 16 ∧
    (txSendSingleFrame frame false).getD 60 0 = frame.len % 256 := by
  refine ⟨?_, txSendSingleFrame_length frame false, txSendSingleFrame_payload frame false, ?_⟩
  · show serializeHead ⟨TX_SEND, 0, 0, ⟨0, 0⟩, ⟨0, 0⟩, 0, 1⟩ ++ serializeCanFrame frame =
      serializeHead ⟨TX_SEND, 0, 0, ⟨0, 0⟩, ⟨0, 0⟩, 0, 1⟩ ++
        serializeCanFrame ⟨frame.can_id, frame.len, frame.flags, frame.res0, frame.res1,
          frame.data.take 8⟩
    rw [serializeCanFrame_data_take]
  · rfl

end CANConnector
